import Mathlib

/-!
# Verification of the SKEMA RAJA auto check-in repository

Shallow embedding, in Lean 4, of the testable logic of the repository:

* `src/checkin.js` (`performCheckin`'s page classifier, navigation-retry
  loop, check-in-time extraction, `sendWhatsAppNotification`),
* `src/utils.js` (holiday list, weekend test),
* `src/index.js` (cron scheduler, `runCheckin` guard, schedule ranges),
* `src/server.js` (log store, config merge, roster CRUD, trigger endpoints).

Machine integers do not occur (all arithmetic is on small naturals and on
rationals modelling `Math.random()` results); fallible steps are modelled
with `Except`/`Option`; ambient state read by the JavaScript (current date,
current time, network responses, thrown browser exceptions) is passed as
explicit parameters.
-/

/-! ## Strings: JavaScript `String.prototype.includes`

`pageContent.includes(pat)` is a contiguous-substring test.  We model it
directly on character lists. -/

/-- `strStarts pat s`: `pat` is a prefix of `s` (character lists). -/
def strStarts : List Char → List Char → Bool
  | [], _ => true
  | _ :: _, [] => false
  | p :: ps, c :: cs => p == c && strStarts ps cs

/-- `hasSub pat s`: `pat` occurs contiguously in `s` (character lists). -/
def hasSub (pat : List Char) : List Char → Bool
  | [] => strStarts pat []
  | c :: cs => strStarts pat (c :: cs) || hasSub pat cs

/-- JavaScript `s.includes(pat)`. -/
def strIncludes (s pat : String) : Bool :=
  hasSub pat.toList s.toList

/-! ## C1 — the page-content classifier of `performCheckin`
(`src/checkin.js`, result classification after form submission). -/

/-- The value returned by `performCheckin`:
`{ success, message, checkinTime }`. -/
structure CheckinResult where
  success : Bool
  message : String
  checkinTime : Option String
deriving DecidableEq, Repr

/-- Success markers (first keyword group, including the dashboard-URL
tests that the source folds into the same condition):
`Berhasil/berhasil/Sukses/sukses/Selamat/tercatat/Data Absensi/Check
Out/MITRA` in the page content, or `/home` or `/dashboard` in the URL. -/
def successGroup (pageContent pageUrl : String) : Bool :=
  strIncludes pageContent "Berhasil" || strIncludes pageContent "berhasil" ||
  strIncludes pageContent "Sukses" || strIncludes pageContent "sukses" ||
  strIncludes pageContent "Selamat" || strIncludes pageContent "tercatat" ||
  strIncludes pageContent "Data Absensi" || strIncludes pageContent "Check Out" ||
  strIncludes pageContent "MITRA" || strIncludes pageUrl "/home" ||
  strIncludes pageUrl "/dashboard"

/-- Already-submitted markers (second keyword group). -/
def alreadyGroup (pageContent : String) : Bool :=
  strIncludes pageContent "sudah absen" || strIncludes pageContent "Sudah Absen" ||
  strIncludes pageContent "sudah tercatat" || strIncludes pageContent "sudah melakukan"

/-- Invalid-credential markers (third keyword group). -/
def invalidGroup (pageContent : String) : Bool :=
  strIncludes pageContent "salah" || strIncludes pageContent "Salah" ||
  strIncludes pageContent "invalid" || strIncludes pageContent "Invalid"

/-- Too-early markers (fourth keyword group). -/
def tooEarlyGroup (pageContent : String) : Bool :=
  strIncludes pageContent "belum waktunya" || strIncludes pageContent "tidak dalam jam"

/-- Location-problem markers (fifth keyword group): `lokasi` AND `tidak`. -/
def locationGroup (pageContent : String) : Bool :=
  strIncludes pageContent "lokasi" && strIncludes pageContent "tidak"

/-- Success-branch result (`checkinTime` truthy picks the timed message). -/
def successResult (checkinTime : Option String) : CheckinResult :=
  { success := true,
    message := match checkinTime with
      | some t => "Check-in berhasil! (" ++ t ++ ")"
      | none => "Check-in berhasil!",
    checkinTime := checkinTime }

/-- Already-submitted-branch result. -/
def alreadyResult (checkinTime : Option String) : CheckinResult :=
  { success := true,
    message := match checkinTime with
      | some t => "Sudah check-in (" ++ t ++ ")"
      | none => "Sudah check-in sebelumnya",
    checkinTime := checkinTime }

/-- The if/else-if classifier chain of `performCheckin`, checked in source
order: success, already-submitted, invalid credentials, too early,
location problem, otherwise unrecognized (carrying the page title). -/
def classifyPage (pageContent pageTitle pageUrl : String)
    (checkinTime : Option String) : CheckinResult :=
  if successGroup pageContent pageUrl then successResult checkinTime
  else if alreadyGroup pageContent then alreadyResult checkinTime
  else if invalidGroup pageContent then
    { success := false, message := "NIP atau Password salah", checkinTime := none }
  else if tooEarlyGroup pageContent then
    { success := false, message := "Belum waktunya check-in", checkinTime := none }
  else if locationGroup pageContent then
    { success := false, message := "Masalah lokasi/koordinat", checkinTime := none }
  else
    { success := false, message := "Response tidak dikenali: " ++ pageTitle,
      checkinTime := none }

/-! ## C2 — working-day calendar (`src/utils.js`) -/

/-- A calendar date (proleptic Gregorian), as the `YYYY-MM-DD` strings of
`HOLIDAYS` denote it. -/
structure CalDate where
  year : Nat
  month : Nat
  day : Nat
deriving DecidableEq, Repr

/-- The static Indonesian national holiday list 2025–2026 of
`src/utils.js`. -/
def HOLIDAYS : List CalDate :=
  [⟨2025, 1, 1⟩, ⟨2025, 1, 29⟩, ⟨2025, 1, 30⟩, ⟨2025, 3, 29⟩,
   ⟨2025, 3, 30⟩, ⟨2025, 3, 31⟩, ⟨2025, 4, 1⟩, ⟨2025, 4, 18⟩,
   ⟨2025, 5, 1⟩, ⟨2025, 5, 12⟩, ⟨2025, 5, 29⟩, ⟨2025, 6, 1⟩,
   ⟨2025, 6, 6⟩, ⟨2025, 6, 27⟩, ⟨2025, 8, 17⟩, ⟨2025, 9, 5⟩,
   ⟨2025, 12, 25⟩,
   ⟨2026, 1, 1⟩, ⟨2026, 1, 18⟩, ⟨2026, 2, 17⟩, ⟨2026, 3, 20⟩,
   ⟨2026, 3, 21⟩, ⟨2026, 4, 3⟩, ⟨2026, 5, 1⟩, ⟨2026, 5, 14⟩,
   ⟨2026, 5, 27⟩, ⟨2026, 6, 1⟩, ⟨2026, 6, 17⟩, ⟨2026, 8, 17⟩,
   ⟨2026, 8, 26⟩, ⟨2026, 12, 25⟩]

/-- `isHoliday` of `src/utils.js`: membership of the current (WITA) date
in `HOLIDAYS` (`HOLIDAYS.includes(today)`); the ambient "today" is the
explicit argument. -/
def isHoliday (d : CalDate) : Bool :=
  decide (d ∈ HOLIDAYS)

/-- Day-of-week 0–6 (Sunday = 0 .. Saturday = 6), as JavaScript
`Date.prototype.getDay` reports it, via days counted from 0000-03-01 in
the proleptic Gregorian calendar (valid for `year ≥ 1`). -/
def dayOfWeek (d : CalDate) : Nat :=
  let y := if d.month ≤ 2 then d.year - 1 else d.year
  let era := y / 400
  let yoe := y - era * 400
  let mp := (d.month + 9) % 12
  let doy := (153 * mp + 2) / 5 + d.day - 1
  let doe := yoe * 365 + yoe / 4 - yoe / 100 + doy
  (era * 146097 + doe + 3) % 7

/-- `isWeekend` of `src/utils.js`: `day === 0 || day === 6` on the WITA
date's `getDay()`. -/
def isWeekend (d : CalDate) : Bool :=
  dayOfWeek d == 0 || dayOfWeek d == 6

/-- `isWorkingDay`: the conjunction actually evaluated by the guard of
`runCheckin` in `src/index.js` (skip when `isWeekend()`, then skip when
`isHoliday()`): a day is working iff it is neither a weekend nor a listed
holiday.  (`src/` has no function of this name; this is the composed
predicate the spec names.) -/
def isWorkingDay (d : CalDate) : Bool :=
  !(isHoliday d) && !(isWeekend d)

/-! ## C3 — the rolling log store (`src/server.js`) -/

/-- A persisted log entry (`logs.json`).  `addLog` stamps the partial
entry with the current ISO timestamp. -/
structure LogEntry where
  type : String
  user : Option String
  message : String
  checkinTime : Option String
  schedule : Option String
  timestamp : String
deriving DecidableEq, Repr

/-- The un-stamped argument of `addLog` (no `timestamp` field yet). -/
structure LogInput where
  type : String
  user : Option String
  message : String
  checkinTime : Option String
  schedule : Option String
deriving DecidableEq, Repr

/-- `{ ...log, timestamp: new Date().toISOString() }`. -/
def stampLog (l : LogInput) (ts : String) : LogEntry :=
  { type := l.type, user := l.user, message := l.message,
    checkinTime := l.checkinTime, schedule := l.schedule, timestamp := ts }

/-- JavaScript `arr.slice(-n)`: the last at most `n` elements. -/
def takeLast (n : Nat) (l : List α) : List α :=
  l.drop (l.length - n)

/-- `loadLogs` of `src/server.js`: parse the file and keep
`logs.slice(-100)`; the file contents are the explicit argument. -/
def loadLogs (file : List LogEntry) : List LogEntry :=
  takeLast 100 file

/-- `addLog` of `src/server.js`: load, push the stamped entry, write back
`logs.slice(-100)`.  Returns the new file contents. -/
def addLog (file : List LogEntry) (l : LogInput) (ts : String) : List LogEntry :=
  takeLast 100 (loadLogs file ++ [stampLog l ts])

/-- `DELETE /api/logs`: the handler writes the literal `[]`. -/
def clearLogs : List LogEntry := []

/-! ## C4 — the navigation-retry loop of `performCheckin`
(`src/checkin.js`: `let retries = 3; while (retries > 0) { try
{ page.goto(...); break } catch { retries--; if (retries === 0) throw
navError; await sleep(5000) } }`).

The environment is an oracle `ok : Nat → Bool` telling whether the `k`-th
`goto` call (0-based) succeeds.  A success value records the number of
`goto` calls made and the list of pause durations (ms) awaited between
them; the thrown error is identified by the index of the `goto` whose
error is rethrown (plus the pauses awaited before that). -/

/-- The body of the retry loop, structurally recursive on the remaining
`retries` budget; `i` is the index of the next `goto` call. -/
def navGo (ok : Nat → Bool) : Nat → Nat → List Nat → Except (Nat × List Nat) (Nat × List Nat)
  | 0, i, ps => .ok (i, ps)
  | r + 1, i, ps =>
    if ok i then .ok (i + 1, ps)
    else if r = 0 then .error (i, ps)
    else navGo ok r (i + 1) (ps ++ [5000])

/-- The navigation step of `performCheckin`: the loop entered with
`retries = 3`. -/
def navigate (ok : Nat → Bool) : Except (Nat × List Nat) (Nat × List Nat) :=
  navGo ok 3 0 []

/-! ## C5 — check-in-time extraction of `performCheckin`
(`src/checkin.js`, the `try { ... page.evaluate(...) } catch { fallback }`
block after submission). -/

/-- Column selection from the current WITA hour: default 1 (Pagi);
2 (Siang) for `12 ≤ hour < 16`; 3 (Sore) for `hour ≥ 16`. -/
def sessionColumn (hour : Nat) : Nat :=
  if 12 ≤ hour ∧ hour < 16 then 2
  else if 16 ≤ hour then 3
  else 1

/-- One attempt of the regex `/(\d{1,2}:\d{2}:\d{2})/` anchored at the
head of the character list (greedy: two digits tried before one). -/
def timeAt : List Char → Option (List Char)
  | a :: b :: rest =>
    if a.isDigit then
      if b.isDigit then
        match rest with
        | ':' :: c :: d :: ':' :: e :: f :: _ =>
          if c.isDigit && d.isDigit && e.isDigit && f.isDigit then
            some [a, b, ':', c, d, ':', e, f]
          else none
        | _ => none
      else if b = ':' then
        match rest with
        | c :: d :: ':' :: e :: f :: _ =>
          if c.isDigit && d.isDigit && e.isDigit && f.isDigit then
            some [a, ':', c, d, ':', e, f]
          else none
        | _ => none
      else none
    else none
  | _ => none

/-- Leftmost match of `/(\d{1,2}:\d{2}:\d{2})/` (JavaScript
`cellText.match(...)`, first capture group). -/
def findTime : List Char → Option (List Char)
  | [] => none
  | c :: cs =>
    match timeAt (c :: cs) with
    | some t => some t
    | none => findTime cs

/-- `cellText.match(/(\d{1,2}:\d{2}:\d{2})/)` on a string, as the matched
substring if any. -/
def regexTimeMatch (s : String) : Option String :=
  (findTime s.toList).map fun l => ⟨l⟩

/-- JavaScript `String.prototype.trim`: strip leading and trailing
whitespace. -/
def strTrim (s : String) : String :=
  ⟨((s.toList.dropWhile Char.isWhitespace).reverse.dropWhile
      Char.isWhitespace).reverse⟩

/-- The `page.evaluate` callback: find the absensi table (modelled as
`Option` of its `tbody` rows, each a list of `td` texts), take the first
data row, return `null` if the selected column is out of range, else
regex-extract from the trimmed cell text. -/
def extractTimeFromTable (table : Option (List (List String)))
    (colIndex : Nat) : Option String :=
  match table with
  | none => none
  | some rows =>
    match rows with
    | [] => none
    | firstRow :: _ =>
      if firstRow.length ≤ colIndex then none
      else
        match firstRow[colIndex]? with
        | some cell => regexTimeMatch (strTrim cell)
        | none => none

/-- The catch-block fallback: the current WITA time string with every
`.` replaced by `:` (`witaTime.replace(/\./g, ':')`). -/
def fallbackWitaTime (witaStr : String) : String :=
  ⟨witaStr.toList.map fun c => if c = '.' then ':' else c⟩

/-- The whole extraction step: the `catch` branch (fallback to current
WITA time) runs only when the `try` block threw (`evalThrew`); otherwise
`checkinTime` is exactly what the `page.evaluate` callback returned —
including `null` when nothing matched. -/
def checkinTimeStep (evalThrew : Bool) (table : Option (List (List String)))
    (hour : Nat) (witaStr : String) : Option String :=
  if evalThrew then some (fallbackWitaTime witaStr)
  else extractTimeFromTable table (sessionColumn hour)

/-! ## Shared roster model (`users.json`, read by `src/index.js` and
`src/server.js`) -/

/-- A roster record.  Fields other than `nip` and `enabled` may be absent
from the JSON object (`Option`). -/
structure StoredUser where
  nip : String
  password : Option String
  name : Option String
  phone : Option String
  enabled : Bool
  createdAt : Option String
deriving DecidableEq, Repr

/-- JavaScript truthiness filter of both runners:
`u.enabled && u.nip && u.password`. -/
def hasCreds (u : StoredUser) : Bool :=
  u.enabled && u.nip != "" && u.password.getD "" != ""

/-- `users.filter(u => u.enabled && u.nip && u.password)`. -/
def enabledWithCreds (users : List StoredUser) : List StoredUser :=
  users.filter hasCreds

/-- One row of the per-run `results` array of `src/index.js`
(`{ nip, name, success, message }`, `checkinTime` dropped here since the
claims do not mention it). -/
structure AttemptRecord where
  nip : String
  name : Option String
  success : Bool
  message : String
deriving DecidableEq, Repr

/-- The `try`/`catch` around one `performCheckin` call in the loop: a
normal result is recorded as is; a thrown error becomes
`{ success: false, message: error.message }`. -/
def processUser (u : StoredUser) (r : Except String CheckinResult) : AttemptRecord :=
  match r with
  | .ok res => { nip := u.nip, name := u.name, success := res.success, message := res.message }
  | .error e => { nip := u.nip, name := u.name, success := false, message := e }

/-! ## C6 — the non-working-day guard
(`runCheckin` in `src/index.js` versus `POST /api/trigger` +
`runCheckin` in `src/server.js`).

Ambient state (`isWeekend()`, `isHoliday()`, the roster file) is passed
explicitly.  `getUsers` is a thunk so that the embedding records whether
the roster is consulted at all on the skip paths. -/

/-- The observable outcome of one `runCheckin` call of `src/index.js`. -/
inductive RunOutcome where
  | skippedWeekend
  | skippedHoliday
  | noUsers
  | completed (results : List AttemptRecord)
deriving DecidableEq, Repr

/-- `runCheckin(scheduleName)` of `src/index.js`: guard on weekend, then
on holiday, then load users, bail out on an empty roster, else process
every enabled user with credentials in order. -/
def runCheckinIndex (scheduleName : String) (weekend holiday : Bool)
    (getUsers : Unit → List StoredUser)
    (perform : StoredUser → Except String CheckinResult) : RunOutcome :=
  let _ := scheduleName
  if weekend then .skippedWeekend
  else if holiday then .skippedHoliday
  else
    let users := getUsers ()
    if users.length = 0 then .noUsers
    else .completed ((enabledWithCreds users).map fun u => processUser u (perform u))

/-- A `res.json({ success, message })` payload. -/
structure ApiResponse where
  success : Bool
  message : String
deriving DecidableEq, Repr

/-- `runCheckin(users, config, 'manual')` of `src/server.js`: no calendar
guard exists in its body — it processes every user it is given.  (Each
iteration also wraps `performCheckin` in `try`/`catch`.) -/
def runCheckinServer (users : List StoredUser)
    (perform : StoredUser → Except String CheckinResult) : List AttemptRecord :=
  users.map fun u => processUser u (perform u)

/-- `POST /api/trigger` of `src/server.js`.  The `weekend`/`holiday`
arguments stand for the ambient calendar state the handler *could* read;
its source never consults `isWeekend`/`isHoliday`, which the definition
exhibits by ignoring them.  It filters enabled users with credentials,
replies `success:false` on an empty selection, else starts the run and
replies `success:true`. -/
def apiTrigger (weekend holiday : Bool) (users : List StoredUser)
    (perform : StoredUser → Except String CheckinResult) :
    ApiResponse × List AttemptRecord :=
  let _ := weekend
  let _ := holiday
  let enabled := enabledWithCreds users
  if enabled.length = 0 then
    ({ success := false, message := "No enabled users found" }, [])
  else
    ({ success := true,
       message := "Check-in started for " ++ toString enabled.length ++ " users" },
     runCheckinServer enabled perform)

/-! ## C7 — `sendWhatsAppNotification` (`src/checkin.js`) -/

/-- The parsed Fonnte gateway JSON: `status` plus optional `reason`. -/
structure GatewayResp where
  status : Bool
  reason : Option String
deriving DecidableEq, Repr

/-- What a call to `sendWhatsAppNotification` does, as seen by its
caller and by the logger: whether an exception escapes (`threw`), the
logger lines produced, and how many times the gateway was fetched. -/
structure NotifyEffect where
  threw : Bool
  logs : List String
  fetchCalls : Nat
deriving DecidableEq, Repr

/-- `sendWhatsAppNotification` of `src/checkin.js`.  The environment
(`net`) is the outcome of the single `fetch`+`response.json()`: a thrown
error or a parsed gateway response.  Source shape: early `return` when
`!user.phone || !fonnteToken`; otherwise one fetch inside `try`, logging
`info` on `result.status`, `warn` otherwise; the `catch` logs `error`.
No code path rethrows and no code path fetches twice. -/
def sendWhatsAppNotification (phone fonnteToken userName : String)
    (net : Except String GatewayResp) : NotifyEffect :=
  if phone = "" ∨ fonnteToken = "" then
    { threw := false, logs := [], fetchCalls := 0 }
  else
    match net with
    | .ok r =>
      if r.status then
        { threw := false, logs := ["info: WhatsApp sent to " ++ userName], fetchCalls := 1 }
      else
        { threw := false,
          logs := ["warn: WhatsApp failed: " ++ r.reason.getD "Unknown error"],
          fetchCalls := 1 }
    | .error e =>
      { threw := false, logs := ["error: Fonnte error: " ++ e], fetchCalls := 1 }

/-! ## C8 — config partial merge (`POST /api/config` in `src/server.js`:
`{ ...loadConfig(), ...req.body }`).

`V` abstracts the JSON values of the fields (numbers, strings, the
schedule array); the spread of a partial object is field-wise
present-overwrites / absent-retains. -/

/-- A full configuration record (`config.json` after `loadConfig`
defaulting; the fields of `DEFAULT_CONFIG`). -/
structure ConfigRec (V : Type) where
  kodeKantor : V
  status : V
  shift : V
  latitude : V
  longitude : V
  locationName : V
  timezone : V
  fonnteAccountToken : V
  fonnteToken : V
  fonnteDeviceNumber : V
  fonnteDeviceName : V
  schedules : V
deriving DecidableEq, Repr

/-- A submitted `req.body`: each field optionally present. -/
structure ConfigPatch (V : Type) where
  kodeKantor : Option V := none
  status : Option V := none
  shift : Option V := none
  latitude : Option V := none
  longitude : Option V := none
  locationName : Option V := none
  timezone : Option V := none
  fonnteAccountToken : Option V := none
  fonnteToken : Option V := none
  fonnteDeviceNumber : Option V := none
  fonnteDeviceName : Option V := none
  schedules : Option V := none
deriving DecidableEq, Repr

/-- `{ ...stored, ...body }` of the `POST /api/config` handler. -/
def mergeConfig {V : Type} (c : ConfigRec V) (p : ConfigPatch V) : ConfigRec V :=
  { kodeKantor := p.kodeKantor.getD c.kodeKantor,
    status := p.status.getD c.status,
    shift := p.shift.getD c.shift,
    latitude := p.latitude.getD c.latitude,
    longitude := p.longitude.getD c.longitude,
    locationName := p.locationName.getD c.locationName,
    timezone := p.timezone.getD c.timezone,
    fonnteAccountToken := p.fonnteAccountToken.getD c.fonnteAccountToken,
    fonnteToken := p.fonnteToken.getD c.fonnteToken,
    fonnteDeviceNumber := p.fonnteDeviceNumber.getD c.fonnteDeviceNumber,
    fonnteDeviceName := p.fonnteDeviceName.getD c.fonnteDeviceName,
    schedules := p.schedules.getD c.schedules }

/-- The body `{latitude: l}` of the claim's example. -/
def latOnly {V : Type} (l : V) : ConfigPatch V :=
  { latitude := some l }

/-! ## C9 — cron trigger delay (`src/index.js`: `SCHEDULES`,
`getRandomDelayInRange`, and the `cron.schedule` callback).

`Math.random()` is modelled by a rational `r` with `0 ≤ r < 1`. -/

/-- One entry of `SCHEDULES` in `src/index.js`. -/
structure ScheduleDef where
  name : String
  cron : String
  status_wfh : String
  shift : String
  startMinute : Nat
  endMinute : Nat
deriving DecidableEq, Repr

/-- `SCHEDULES[0]` (default cron expressions from `config`). -/
def schedulePagi : ScheduleDef :=
  { name := "Pagi", cron := "0 7 * * 1-5", status_wfh := "2", shift := "1",
    startMinute := 0, endMinute := 60 }

/-- `SCHEDULES[1]`. -/
def scheduleSiang : ScheduleDef :=
  { name := "Siang", cron := "5 12 * * 1-5", status_wfh := "2", shift := "1",
    startMinute := 0, endMinute := 55 }

/-- `SCHEDULES[2]`. -/
def scheduleSore : ScheduleDef :=
  { name := "Sore", cron := "0 17 * * 1-5", status_wfh := "2", shift := "1",
    startMinute := 0, endMinute := 60 }

/-- The `SCHEDULES` array. -/
def SCHEDULES : List ScheduleDef := [schedulePagi, scheduleSiang, scheduleSore]

/-- The `(minMs, maxMs)` bounds computed by `getRandomDelayInRange`
(`(schedule.startMinute || 0) * 60 * 1000` and
`(schedule.endMinute || 30) * 60 * 1000`; `0` is falsy). -/
def delayRangeMs (s : ScheduleDef) : Nat × Nat :=
  ((if s.startMinute = 0 then 0 else s.startMinute) * 60 * 1000,
   (if s.endMinute = 0 then 30 else s.endMinute) * 60 * 1000)

/-- `getRandomDelayInRange(schedule)` with `Math.random() = r`:
`minMs + r * (maxMs - minMs)`. -/
def getRandomDelayInRange (s : ScheduleDef) (r : ℚ) : ℚ :=
  let minMs : ℚ := (delayRangeMs s).1
  let maxMs : ℚ := (delayRangeMs s).2
  minMs + r * (maxMs - minMs)

/-- What one firing of the `cron.schedule` callback does before the
employee loop: the delays awaited (the single computed delay, skipped
when zero) and the schedule name then handed to `runCheckin`. -/
structure CronRun where
  preLoopDelays : List ℚ
  runSchedule : String
deriving DecidableEq, Repr

/-- The `cron.schedule` callback of `src/index.js`: compute
`randomDelayMs` once, `await` it iff positive, then `runCheckin(name)`. -/
def cronCallback (s : ScheduleDef) (r : ℚ) : CronRun :=
  let d := getRandomDelayInRange s r
  { preLoopDelays := if 0 < d then [d] else [], runSchedule := s.name }

/-! ## C10 — roster CRUD (`src/server.js`: `POST /api/users`,
`DELETE /api/users`, `POST /api/users/toggle`) -/

/-- A `POST /api/users` body: `nip` keys the operation, other fields
optionally present. -/
structure UserPatch where
  nip : String
  password : Option String := none
  name : Option String := none
  phone : Option String := none
  enabled : Option Bool := none
deriving DecidableEq, Repr

/-- `{ ...users[index], ...req.body }`. -/
def applyPatch (u : StoredUser) (p : UserPatch) : StoredUser :=
  { nip := p.nip,
    password := match p.password with | some v => some v | none => u.password,
    name := match p.name with | some v => some v | none => u.name,
    phone := match p.phone with | some v => some v | none => u.phone,
    enabled := match p.enabled with | some v => v | none => u.enabled,
    createdAt := u.createdAt }

/-- `{ ...req.body, enabled: true, createdAt: now }` for a fresh nip. -/
def newUser (p : UserPatch) (now : String) : StoredUser :=
  { nip := p.nip, password := p.password, name := p.name, phone := p.phone,
    enabled := true, createdAt := some now }

/-- `POST /api/users`: `findIndex` on `nip`; merge in place when found,
else push a fresh record. -/
def saveUser (users : List StoredUser) (p : UserPatch) (now : String) : List StoredUser :=
  match users.findIdx? (fun u => u.nip == p.nip) with
  | some i =>
    match users[i]? with
    | some u => users.set i (applyPatch u p)
    | none => users
  | none => users ++ [newUser p now]

/-- `DELETE /api/users`: `users.filter(u => u.nip !== req.body.nip)`. -/
def deleteUser (users : List StoredUser) (nip : String) : List StoredUser :=
  users.filter fun u => u.nip != nip

/-- `POST /api/users/toggle`: `find` on `nip`, flip `enabled` in place
and save when found, otherwise leave the file untouched. -/
def toggleUser (users : List StoredUser) (nip : String) : List StoredUser :=
  match users.findIdx? (fun u => u.nip == nip) with
  | some i =>
    match users[i]? with
    | some u => users.set i { u with enabled := !u.enabled }
    | none => users
  | none => users

/-- The whole toggle endpoint: new roster plus the response, which is
`{ success: true, message: 'User toggled' }` on every path. -/
def toggleEndpoint (users : List StoredUser) (nip : String) :
    List StoredUser × ApiResponse :=
  (toggleUser users nip, { success := true, message := "User toggled" })

/-- Pairwise-distinct `nip`s. -/
def nipsNodup (users : List StoredUser) : Prop :=
  (users.map (·.nip)).Nodup

-- Concrete evaluations exercising the embedded definitions.
example : dayOfWeek ⟨2025, 1, 1⟩ = 3 := by decide   -- Wednesday
example : dayOfWeek ⟨2025, 10, 11⟩ = 6 := by decide -- Saturday
example : dayOfWeek ⟨1970, 1, 1⟩ = 4 := by decide   -- Thursday
example : dayOfWeek ⟨2026, 12, 25⟩ = 5 := by decide -- Friday
example : strIncludes "abc Berhasil xyz" "Berhasil" = true := by decide
example : strIncludes "abc" "Berhasil" = false := by decide
example : regexTimeMatch "07-Jan-2026 11:29:24" = some "11:29:24" := by decide
example : regexTimeMatch "123:45:67" = some "23:45:67" := by decide
example : regexTimeMatch "7:05:09 x" = some "7:05:09" := by decide
example : regexTimeMatch "tidak ada" = none := by decide
example : fallbackWitaTime "11.29.24" = "11:29:24" := by decide
example : navigate (fun _ => false) = .error (2, [5000, 5000]) := rfl
example : navigate (fun k => k == 1) = .ok (2, [5000]) := rfl

/-! # Theorems -/

/-! ## Helper lemmas -/

theorem navGo_succ (ok : Nat → Bool) (r i : Nat) (ps : List Nat) :
    navGo ok (r + 1) i ps =
      if ok i then .ok (i + 1, ps)
      else if r = 0 then .error (i, ps)
      else navGo ok r (i + 1) (ps ++ [5000]) := rfl

theorem navigate_cases (ok : Nat → Bool) :
    navigate ok =
      if ok 0 then .ok (1, [])
      else if ok 1 then .ok (2, [5000])
      else if ok 2 then .ok (3, [5000, 5000])
      else .error (2, [5000, 5000]) := by
  show navGo ok (2 + 1) 0 [] = _
  rw [navGo_succ]
  cases h0 : ok 0 with
  | true => simp
  | false =>
    simp only [if_false, Bool.false_eq_true]
    rw [show (2 : Nat) = 1 + 1 from rfl, navGo_succ]
    cases h1 : ok 1 with
    | true => simp
    | false =>
      simp only [if_false, Bool.false_eq_true]
      rw [navGo_succ]
      cases h2 : ok 2 with
      | true => simp
      | false => simp

/-! ## C1 — page classification -/

/-- C1: the page-content classifier in `performCheckin` is deterministic
(a pure function of the rendered text, title, URL and extracted time) and
order-sensitive: it returns the outcome of the first matching keyword
group in the fixed priority order success → already-submitted →
invalid-credentials → too-early → location-problem, and a page matching
no group yields the "unrecognized response" outcome carrying the page
title. -/
theorem classifyPage_first_group_wins (content title url : String) (t : Option String) :
    (successGroup content url = true →
      classifyPage content title url t = successResult t) ∧
    (successGroup content url = false → alreadyGroup content = true →
      classifyPage content title url t = alreadyResult t) ∧
    (successGroup content url = false → alreadyGroup content = false →
      invalidGroup content = true →
      classifyPage content title url t =
        { success := false, message := "NIP atau Password salah", checkinTime := none }) ∧
    (successGroup content url = false → alreadyGroup content = false →
      invalidGroup content = false → tooEarlyGroup content = true →
      classifyPage content title url t =
        { success := false, message := "Belum waktunya check-in", checkinTime := none }) ∧
    (successGroup content url = false → alreadyGroup content = false →
      invalidGroup content = false → tooEarlyGroup content = false →
      locationGroup content = true →
      classifyPage content title url t =
        { success := false, message := "Masalah lokasi/koordinat", checkinTime := none }) ∧
    (successGroup content url = false → alreadyGroup content = false →
      invalidGroup content = false → tooEarlyGroup content = false →
      locationGroup content = false →
      classifyPage content title url t =
        { success := false, message := "Response tidak dikenali: " ++ title,
          checkinTime := none }) := by
  refine ⟨?_, ?_, ?_, ?_, ?_, ?_⟩ <;> intros <;> simp [classifyPage, *]

/-- Concrete instance of `classifyPage_first_group_wins`: a page whose
text matches no keyword group is classified as unrecognized, carrying the
page title. -/
theorem classifyPage_first_group_wins_check :
    classifyPage "halaman kosong" "SKEMA RAJA" "https://skemaraja.kemenhub.go.id/cek" none =
      { success := false, message := "Response tidak dikenali: SKEMA RAJA",
        checkinTime := none } :=
  (classifyPage_first_group_wins "halaman kosong" "SKEMA RAJA"
      "https://skemaraja.kemenhub.go.id/cek" none).2.2.2.2.2
    (by decide) (by decide) (by decide) (by decide) (by decide)

/-! ## C2 — working days -/

/-- C2: for every date in the static holiday list `isWorkingDay` (the
conjunction of not-`isHoliday` and not-`isWeekend`) is false; for every
Saturday or Sunday it is false; for every other weekday not in the list
it is true. -/
theorem isWorkingDay_cases (d : CalDate) :
    (d ∈ HOLIDAYS → isWorkingDay d = false) ∧
    (isWeekend d = true → isWorkingDay d = false) ∧
    (d ∉ HOLIDAYS → isWeekend d = false → isWorkingDay d = true) := by
  refine ⟨?_, ?_, ?_⟩
  · intro h; simp [isWorkingDay, isHoliday, h]
  · intro h; simp [isWorkingDay, h]
  · intro h1 h2; simp [isWorkingDay, isHoliday, h1, h2]

/-- Concrete instances of `isWorkingDay_cases`: Christmas 2025 (listed
holiday), Saturday 2025-10-11, and Monday 2025-10-13 (ordinary
weekday). -/
theorem isWorkingDay_cases_check :
    isWorkingDay ⟨2025, 12, 25⟩ = false ∧
    isWorkingDay ⟨2025, 10, 11⟩ = false ∧
    isWorkingDay ⟨2025, 10, 13⟩ = true :=
  ⟨(isWorkingDay_cases ⟨2025, 12, 25⟩).1 (by decide),
   (isWorkingDay_cases ⟨2025, 10, 11⟩).2.1 (by decide),
   (isWorkingDay_cases ⟨2025, 10, 13⟩).2.2 (by decide) (by decide)⟩

/-! ## C3 — rolling log bound -/

theorem takeLast_length_le (n : Nat) (l : List α) : (takeLast n l).length ≤ n := by
  simp only [takeLast, List.length_drop]
  omega

theorem takeLast_suffix (n : Nat) (l : List α) : takeLast n l <:+ l :=
  List.drop_suffix _ _

theorem suffix_append_right {l₁ l₂ : List α} (c : List α) (h : l₁ <:+ l₂) :
    l₁ ++ c <:+ l₂ ++ c := by
  obtain ⟨t, rfl⟩ := h
  exact ⟨t, (List.append_assoc t l₁ c).symm⟩

theorem addLog_length_le (file : List LogEntry) (l : LogInput) (ts : String) :
    (addLog file l ts).length ≤ 100 :=
  takeLast_length_le _ _

theorem addLog_suffix (file : List LogEntry) (l : LogInput) (ts : String) :
    addLog file l ts <:+ file ++ [stampLog l ts] :=
  (takeLast_suffix _ _).trans (suffix_append_right _ (takeLast_suffix _ _))

theorem addLog_getLast (file : List LogEntry) (l : LogInput) (ts : String) :
    (addLog file l ts).getLast? = some (stampLog l ts) := by
  unfold addLog takeLast
  rw [List.drop_append_of_le_length
    (by simp only [List.length_append, List.length_cons, List.length_nil]; omega)]
  exact List.getLast?_concat _

theorem foldl_addLog_inv (inputs : List (LogInput × String)) :
    ∀ file : List LogEntry, file.length ≤ 100 →
      (inputs.foldl (fun f p => addLog f p.1 p.2) file).length ≤ 100 := by
  induction inputs with
  | nil => intro file h; simpa using h
  | cons x xs ih =>
    intro file _
    simp only [List.foldl_cons]
    exact ih _ (addLog_length_le _ _ _)

theorem foldl_addLog_length_le (inputs : List (LogInput × String))
    (file : List LogEntry) (h : inputs ≠ []) :
    (inputs.foldl (fun f p => addLog f p.1 p.2) file).length ≤ 100 := by
  cases inputs with
  | nil => exact absurd rfl h
  | cons x xs =>
    simp only [List.foldl_cons]
    exact foldl_addLog_inv xs _ (addLog_length_le _ _ _)

/-- C3: after any (positive) number of appends via `addLog` the persisted
log holds at most 100 entries; each write keeps a suffix of the previous
log plus the new entry (the oldest entries are the ones truncated) with
the new entry last; the clear-logs handler resets the file to `[]`. -/
theorem addLog_rolling_log (file : List LogEntry) (l : LogInput) (ts : String)
    (inputs : List (LogInput × String)) (h : inputs ≠ []) :
    (addLog file l ts).length ≤ 100 ∧
    addLog file l ts <:+ file ++ [stampLog l ts] ∧
    (addLog file l ts).getLast? = some (stampLog l ts) ∧
    (inputs.foldl (fun f p => addLog f p.1 p.2) file).length ≤ 100 ∧
    clearLogs = [] :=
  ⟨addLog_length_le file l ts, addLog_suffix file l ts, addLog_getLast file l ts,
   foldl_addLog_length_le inputs file h, rfl⟩

/-- Concrete instance of `addLog_rolling_log` on a one-element append. -/
theorem addLog_rolling_log_check :
    (addLog [] ⟨"info", none, "mulai", none, none⟩ "2026-01-07T03:00:00Z").length ≤ 100 :=
  (addLog_rolling_log [] ⟨"info", none, "mulai", none, none⟩ "2026-01-07T03:00:00Z"
    [(⟨"info", none, "mulai", none, none⟩, "2026-01-07T03:00:00Z")] (by simp)).1

/-! ## C4 — navigation retry -/

/-- C4: `performCheckin` tries the navigation up to 3 times (the source's
`retries = 3` budget): it stops at the first successful `goto`, awaits a
fixed 5000 ms pause between consecutive tries, and when all 3 tries fail
it rethrows the error of the last `goto` to the caller. -/
theorem navigate_retry_three (ok : Nat → Bool) :
    (ok 0 = true → navigate ok = .ok (1, [])) ∧
    (ok 0 = false → ok 1 = true → navigate ok = .ok (2, [5000])) ∧
    (ok 0 = false → ok 1 = false → ok 2 = true →
      navigate ok = .ok (3, [5000, 5000])) ∧
    (ok 0 = false → ok 1 = false → ok 2 = false →
      navigate ok = .error (2, [5000, 5000])) ∧
    (∀ n ps, navigate ok = .ok (n, ps) → n ≤ 3 ∧ ∀ q ∈ ps, q = 5000) ∧
    (∀ i ps, navigate ok = .error (i, ps) → i = 2 ∧ ps = [5000, 5000]) := by
  rw [navigate_cases]
  refine ⟨?_, ?_, ?_, ?_, ?_, ?_⟩
  · intro h0; simp [h0]
  · intro h0 h1; simp [h0, h1]
  · intro h0 h1 h2; simp [h0, h1, h2]
  · intro h0 h1 h2; simp [h0, h1, h2]
  · intro n ps h
    cases h0 : ok 0 <;> cases h1 : ok 1 <;> cases h2 : ok 2 <;>
      simp [h0, h1, h2] at h <;> obtain ⟨rfl, rfl⟩ := h <;> simp
  · intro i ps h
    cases h0 : ok 0 <;> cases h1 : ok 1 <;> cases h2 : ok 2 <;>
      simp [h0, h1, h2] at h <;> obtain ⟨rfl, rfl⟩ := h <;> simp

/-- Concrete instance of `navigate_retry_three`: three straight failures
surface the error of the third `goto` after two 5-second pauses. -/
theorem navigate_retry_three_check :
    navigate (fun _ => false) = .error (2, [5000, 5000]) :=
  (navigate_retry_three (fun _ => false)).2.2.2.1 rfl rfl rfl

/-! ## C5 — check-in-time extraction -/

/-- C5 counterexample: with no thrown exception and no absensi table on
the page, the extraction fails (`page.evaluate` returns `null`) yet the
reported check-in time is `none`, not the current WITA time — the
fallback-on-any-failure reading of the claim is false. -/
theorem checkinTime_null_no_fallback :
    checkinTimeStep false none 9 "07.15.30" = none ∧
    fallbackWitaTime "07.15.30" = "07:15:30" ∧
    checkinTimeStep false none 9 "07.15.30" ≠ some (fallbackWitaTime "07.15.30") :=
  ⟨rfl, by decide, by decide⟩

/-- C5 (amended): the extraction selects from the first data row the
column of the current WITA window (column 1 before hour 12, column 2 for
hours 12–15, column 3 from hour 16) and regex-extracts an `HH:MM:SS`
pattern from that cell's trimmed text; the fallback to the current WITA
time happens only when the extraction step throws, while a completed
extraction that finds no table, no row, no cell or no pattern reports no
check-in time at all. -/
theorem checkinTimeStep_cases (evalThrew : Bool) (table : Option (List (List String)))
    (hour : Nat) (witaStr : String) :
    (hour < 12 → sessionColumn hour = 1) ∧
    (12 ≤ hour → hour < 16 → sessionColumn hour = 2) ∧
    (16 ≤ hour → sessionColumn hour = 3) ∧
    (evalThrew = true → checkinTimeStep evalThrew table hour witaStr =
      some (fallbackWitaTime witaStr)) ∧
    (evalThrew = false → table = none →
      checkinTimeStep evalThrew table hour witaStr = none) ∧
    (evalThrew = false → table = some [] →
      checkinTimeStep evalThrew table hour witaStr = none) ∧
    (evalThrew = false → ∀ row rest, table = some (row :: rest) →
      row.length ≤ sessionColumn hour →
      checkinTimeStep evalThrew table hour witaStr = none) ∧
    (evalThrew = false → ∀ row rest cell, table = some (row :: rest) →
      row[sessionColumn hour]? = some cell →
      checkinTimeStep evalThrew table hour witaStr = regexTimeMatch (strTrim cell)) := by
  refine ⟨?_, ?_, ?_, ?_, ?_, ?_, ?_, ?_⟩
  · intro h; simp only [sessionColumn]
    rw [if_neg (by omega), if_neg (by omega)]
  · intro h1 h2; simp only [sessionColumn]
    rw [if_pos ⟨h1, h2⟩]
  · intro h; simp only [sessionColumn]
    rw [if_neg (by omega), if_pos h]
  · intro h; simp [checkinTimeStep, h]
  · intro he ht; subst he; subst ht
    simp [checkinTimeStep, extractTimeFromTable]
  · intro he ht; subst he; subst ht
    simp [checkinTimeStep, extractTimeFromTable]
  · intro he row rest ht hlen; subst he; subst ht
    simp [checkinTimeStep, extractTimeFromTable, hlen]
  · intro he row rest cell ht hcell; subst he; subst ht
    have hlt : sessionColumn hour < row.length := by
      by_contra hcon
      rw [List.getElem?_eq_none (by omega)] at hcell
      exact Option.noConfusion hcell
    simp [checkinTimeStep, extractTimeFromTable, Nat.not_le_of_lt hlt, hcell]

/-- Concrete instance of `checkinTimeStep_cases`: at WITA hour 9 (Pagi
column), the `PAGI` cell of the first data row yields its `HH:MM:SS`
text. -/
theorem checkinTimeStep_cases_check :
    checkinTimeStep false (some [["07-Jan-2026", "07-Jan-2026 07:12:01", "", ""]]) 9 "x" =
      some "07:12:01" :=
  ((checkinTimeStep_cases false
      (some [["07-Jan-2026", "07-Jan-2026 07:12:01", "", ""]]) 9 "x").2.2.2.2.2.2.2
    rfl ["07-Jan-2026", "07-Jan-2026 07:12:01", "", ""] [] "07-Jan-2026 07:12:01"
    rfl (by decide)).trans (by decide)

/-! ## C6 — the non-working-day guard -/

/-- C6 counterexample: the guard is not specific to the cron-triggered
path.  The CLI on-demand trigger (`node src/index.js --manual`, which
calls `runCheckin('Manual')`) is also guarded: on a weekend it skips
before the roster is read, while the dashboard's `/api/trigger` replies
success and runs on the same day. -/
theorem guard_hits_cli_manual_too :
    runCheckinIndex "Manual" true false
        (fun _ => [⟨"1234", some "1234", some "Budi", none, true, none⟩])
        (fun _ => .ok ⟨true, "ok", none⟩) = .skippedWeekend ∧
    (apiTrigger true false [⟨"1234", some "1234", some "Budi", none, true, none⟩]
        (fun _ => .ok ⟨true, "ok", none⟩)).1.success = true :=
  ⟨rfl, rfl⟩

/-- C6 (amended): the non-working-day guard applies to every run of the
scheduler program's `runCheckin` — cron-triggered and CLI-triggered alike
— which aborts with the logged skip reason before the roster is loaded
whenever the day is a weekend or a listed holiday; the dashboard's
on-demand `/api/trigger` handler never consults the calendar and runs
regardless of the day. -/
theorem guard_scheduler_vs_dashboard (sched : String) (weekend holiday : Bool)
    (g g' : Unit → List StoredUser)
    (perform : StoredUser → Except String CheckinResult) :
    (weekend = true → runCheckinIndex sched weekend holiday g perform = .skippedWeekend) ∧
    (weekend = false → holiday = true →
      runCheckinIndex sched weekend holiday g perform = .skippedHoliday) ∧
    (weekend = true ∨ holiday = true →
      runCheckinIndex sched weekend holiday g perform =
        runCheckinIndex sched weekend holiday g' perform) ∧
    (∀ users, apiTrigger weekend holiday users perform =
      apiTrigger false false users perform) ∧
    (∀ users, (enabledWithCreds users).length ≠ 0 →
      (apiTrigger weekend holiday users perform).2 =
        runCheckinServer (enabledWithCreds users) perform) := by
  refine ⟨?_, ?_, ?_, ?_, ?_⟩
  · intro h; simp [runCheckinIndex, h]
  · intro h1 h2; simp [runCheckinIndex, h1, h2]
  · rintro (h | h)
    · simp [runCheckinIndex, h]
    · cases hw : weekend <;> simp [runCheckinIndex, h]
  · intro users; rfl
  · intro users h; simp [apiTrigger, h]

/-- Concrete instance of `guard_scheduler_vs_dashboard`: a holiday run of
the scheduler skips; the dashboard trigger still processes its one
enabled user. -/
theorem guard_scheduler_vs_dashboard_check :
    runCheckinIndex "Pagi" false true
        (fun _ => [⟨"1234", some "1234", some "Budi", none, true, none⟩])
        (fun _ => .ok ⟨true, "ok", none⟩) = .skippedHoliday :=
  (guard_scheduler_vs_dashboard "Pagi" false true
      (fun _ => [⟨"1234", some "1234", some "Budi", none, true, none⟩])
      (fun _ => [⟨"1234", some "1234", some "Budi", none, true, none⟩])
      (fun _ => .ok ⟨true, "ok", none⟩)).2.1 rfl rfl

/-! ## C7 — notification failure handling -/

/-- C7 counterexample: with a missing phone number (and likewise a
missing token) `sendWhatsAppNotification` returns silently — no log line
is produced — so "a missing device token, a missing phone number, … is
logged" is false; the failure is swallowed but unlogged. -/
theorem notify_missing_phone_unlogged :
    sendWhatsAppNotification "" "FONNTE_TOKEN" "Budi" (.ok ⟨true, none⟩) =
      { threw := false, logs := [], fetchCalls := 0 } :=
  rfl

/-- C7 (amended): `sendWhatsAppNotification` never propagates a failure
to its caller and never retries (at most one gateway fetch): a missing
device token or phone number causes a silent early return without
logging; a network/parse error is caught and logged; a non-success
gateway response is logged; in every case the function returns
normally. -/
theorem notify_swallows_failures (phone token userName : String)
    (net : Except String GatewayResp) :
    (sendWhatsAppNotification phone token userName net).threw = false ∧
    (sendWhatsAppNotification phone token userName net).fetchCalls ≤ 1 ∧
    (phone = "" ∨ token = "" →
      sendWhatsAppNotification phone token userName net =
        { threw := false, logs := [], fetchCalls := 0 }) ∧
    (∀ e, phone ≠ "" → token ≠ "" → net = .error e →
      (sendWhatsAppNotification phone token userName net).logs =
        ["error: Fonnte error: " ++ e]) ∧
    (∀ r, phone ≠ "" → token ≠ "" → net = .ok r → r.status = false →
      (sendWhatsAppNotification phone token userName net).logs =
        ["warn: WhatsApp failed: " ++ r.reason.getD "Unknown error"]) := by
  refine ⟨?_, ?_, ?_, ?_, ?_⟩
  · unfold sendWhatsAppNotification
    split
    · rfl
    · cases net with
      | ok r => cases hr : r.status <;> simp [hr]
      | error e => rfl
  · unfold sendWhatsAppNotification
    split
    · simp
    · cases net with
      | ok r => cases hr : r.status <;> simp [hr]
      | error e => simp
  · intro h; simp [sendWhatsAppNotification, h]
  · intro e hp ht hnet; subst hnet
    simp [sendWhatsAppNotification, hp, ht]
  · intro r hp ht hnet hr; subst hnet
    simp [sendWhatsAppNotification, hp, ht, hr]

/-- Concrete instance of `notify_swallows_failures`: a network error is
logged and swallowed. -/
theorem notify_swallows_failures_check :
    (sendWhatsAppNotification "0812345" "FONNTE_TOKEN" "Budi"
        (.error "fetch failed")).logs = ["error: Fonnte error: fetch failed"] :=
  (notify_swallows_failures "0812345" "FONNTE_TOKEN" "Budi"
      (.error "fetch failed")).2.2.2.1 "fetch failed" (by decide) (by decide) rfl

/-! ## C8 — config partial merge -/

/-- C8: the config set operation has partial-merge semantics — for every
stored configuration record and submitted partial record, each submitted
field overwrites the stored value and each omitted field retains its
prior value; in particular submitting `{latitude: l}` changes latitude
only. -/
theorem mergeConfig_overwrite_retain {V : Type} (c : ConfigRec V) (p : ConfigPatch V) :
    (∀ v, p.kodeKantor = some v → (mergeConfig c p).kodeKantor = v) ∧
    (p.kodeKantor = none → (mergeConfig c p).kodeKantor = c.kodeKantor) ∧
    (∀ v, p.status = some v → (mergeConfig c p).status = v) ∧
    (p.status = none → (mergeConfig c p).status = c.status) ∧
    (∀ v, p.shift = some v → (mergeConfig c p).shift = v) ∧
    (p.shift = none → (mergeConfig c p).shift = c.shift) ∧
    (∀ v, p.latitude = some v → (mergeConfig c p).latitude = v) ∧
    (p.latitude = none → (mergeConfig c p).latitude = c.latitude) ∧
    (∀ v, p.longitude = some v → (mergeConfig c p).longitude = v) ∧
    (p.longitude = none → (mergeConfig c p).longitude = c.longitude) ∧
    (∀ v, p.locationName = some v → (mergeConfig c p).locationName = v) ∧
    (p.locationName = none → (mergeConfig c p).locationName = c.locationName) ∧
    (∀ v, p.timezone = some v → (mergeConfig c p).timezone = v) ∧
    (p.timezone = none → (mergeConfig c p).timezone = c.timezone) ∧
    (∀ v, p.fonnteAccountToken = some v → (mergeConfig c p).fonnteAccountToken = v) ∧
    (p.fonnteAccountToken = none →
      (mergeConfig c p).fonnteAccountToken = c.fonnteAccountToken) ∧
    (∀ v, p.fonnteToken = some v → (mergeConfig c p).fonnteToken = v) ∧
    (p.fonnteToken = none → (mergeConfig c p).fonnteToken = c.fonnteToken) ∧
    (∀ v, p.fonnteDeviceNumber = some v → (mergeConfig c p).fonnteDeviceNumber = v) ∧
    (p.fonnteDeviceNumber = none →
      (mergeConfig c p).fonnteDeviceNumber = c.fonnteDeviceNumber) ∧
    (∀ v, p.fonnteDeviceName = some v → (mergeConfig c p).fonnteDeviceName = v) ∧
    (p.fonnteDeviceName = none →
      (mergeConfig c p).fonnteDeviceName = c.fonnteDeviceName) ∧
    (∀ v, p.schedules = some v → (mergeConfig c p).schedules = v) ∧
    (p.schedules = none → (mergeConfig c p).schedules = c.schedules) ∧
    (∀ l, mergeConfig c (latOnly l) = { c with latitude := l }) := by
  refine ⟨?_, ?_, ?_, ?_, ?_, ?_, ?_, ?_, ?_, ?_, ?_, ?_, ?_,
          ?_, ?_, ?_, ?_, ?_, ?_, ?_, ?_, ?_, ?_, ?_, fun l => rfl⟩
  all_goals first
    | (intro v h; simp [mergeConfig, h])
    | (intro h; simp [mergeConfig, h])

/-- Concrete instance of `mergeConfig_overwrite_retain`: submitting only a new
latitude to a stored record overwrites that field. -/
theorem mergeConfig_overwrite_retain_check :
    (mergeConfig
        (V := String)
        ⟨"004036057000000", "2", "1", "0.537831", "123.058388", "KSOP Gorontalo",
         "Asia/Makassar", "", "", "", "", "[]"⟩
        (latOnly "1.0")).latitude = "1.0" :=
  (mergeConfig_overwrite_retain
      ⟨"004036057000000", "2", "1", "0.537831", "123.058388", "KSOP Gorontalo",
       "Asia/Makassar", "", "", "", "", "[]"⟩
      (latOnly "1.0")).2.2.2.2.2.2.1 "1.0" rfl

/-! ## C9 — cron trigger delay -/

/-- C9 counterexample: the per-window delay ranges are not pairwise
distinct — Pagi and Sore use the identical range (0 to 60 minutes, i.e.
`[0, 3600000)` ms); only Siang's `[0, 3300000)` differs.  At the same
`Math.random()` draw, Pagi and Sore wait exactly the same time. -/
theorem pagi_sore_share_range :
    delayRangeMs schedulePagi = delayRangeMs scheduleSore ∧
    delayRangeMs schedulePagi = (0, 3600000) ∧
    delayRangeMs scheduleSiang = (0, 3300000) ∧
    getRandomDelayInRange schedulePagi (1/2) =
      getRandomDelayInRange scheduleSore (1/2) :=
  ⟨rfl, rfl, rfl, rfl⟩

/-- C9 (amended): on each cron trigger exactly one extra randomized delay
is computed and awaited before the per-employee loop starts, drawn from
the window's own `[startMinute, endMinute)` range — `[0, 60)` minutes for
Pagi, `[0, 55)` for Siang, `[0, 60)` for Sore — but the three ranges are
not pairwise distinct: Pagi and Sore share the same range and only
Siang's differs. -/
theorem cron_delay_once_in_range (s : ScheduleDef) (r : ℚ) :
    ((cronCallback s r).runSchedule = s.name) ∧
    ((cronCallback s r).preLoopDelays.length ≤ 1) ∧
    (∀ d ∈ (cronCallback s r).preLoopDelays, d = getRandomDelayInRange s r) ∧
    (0 < getRandomDelayInRange s r →
      (cronCallback s r).preLoopDelays = [getRandomDelayInRange s r]) ∧
    (s ∈ SCHEDULES → 0 ≤ r → r < 1 →
      ((delayRangeMs s).1 : ℚ) ≤ getRandomDelayInRange s r ∧
      getRandomDelayInRange s r < ((delayRangeMs s).2 : ℚ)) ∧
    delayRangeMs schedulePagi = delayRangeMs scheduleSore ∧
    delayRangeMs scheduleSiang ≠ delayRangeMs schedulePagi := by
  refine ⟨rfl, ?_, ?_, ?_, ?_, rfl, by decide⟩
  · simp only [cronCallback]
    by_cases h : (0 : ℚ) < getRandomDelayInRange s r <;> simp [h]
  · simp only [cronCallback]
    by_cases h : (0 : ℚ) < getRandomDelayInRange s r <;> simp [h]
  · intro h; simp [cronCallback, h]
  · intro hs h0 h1
    have : s = schedulePagi ∨ s = scheduleSiang ∨ s = scheduleSore := by
      simpa [SCHEDULES] using hs
    rcases this with rfl | rfl | rfl <;>
      · simp only [getRandomDelayInRange, delayRangeMs, schedulePagi, scheduleSiang,
          scheduleSore]
        norm_num
        constructor
        · positivity
        · nlinarith

/-- Concrete instance of `cron_delay_once_in_range`: a mid-range draw for
Pagi stays inside `[0 ms, 3600000 ms)`. -/
theorem cron_delay_once_in_range_check :
    ((delayRangeMs schedulePagi).1 : ℚ) ≤ getRandomDelayInRange schedulePagi (1/2) ∧
    getRandomDelayInRange schedulePagi (1/2) < ((delayRangeMs schedulePagi).2 : ℚ) :=
  (cron_delay_once_in_range schedulePagi (1/2)).2.2.2.2.1
    (by decide) (by norm_num) (by norm_num)

/-! ## C10 — roster CRUD preserves nip distinctness -/

theorem map_set_eq_of_proj {α β : Type} (g : α → β) :
    ∀ (l : List α) (i : Nat) (u v : α), l[i]? = some u → g v = g u →
      (l.set i v).map g = l.map g := by
  intro l
  induction l with
  | nil => intro i u v h _; simp at h
  | cons a as ih =>
    intro i u v h hg
    cases i with
    | zero =>
      simp only [List.getElem?_cons_zero, Option.some.injEq] at h
      subst h
      simp [hg]
    | succ n =>
      simp only [List.getElem?_cons_succ] at h
      simp only [List.set_cons_succ, List.map_cons]
      rw [ih n u v h hg]

theorem findIdx?_some_spec (p : α → Bool) :
    ∀ (l : List α) (i : Nat), l.findIdx? p = some i →
      ∃ u, l[i]? = some u ∧ p u = true := by
  intro l
  induction l with
  | nil => intro i h; simp at h
  | cons a as ih =>
    intro i h
    rw [List.findIdx?_cons] at h
    by_cases hp : p a
    · rw [if_pos hp] at h
      cases h
      exact ⟨a, by simp, hp⟩
    · rw [if_neg hp, List.findIdx?_succ] at h
      cases hi : as.findIdx? p with
      | none => rw [hi] at h; simp at h
      | some j =>
        rw [hi] at h
        simp at h
        subst h
        obtain ⟨u, hu, hpu⟩ := ih j hi
        exact ⟨u, by simpa using hu, hpu⟩

theorem saveUser_found (users : List StoredUser) (p : UserPatch) (now : String)
    (i : Nat) (h : users.findIdx? (fun u => u.nip == p.nip) = some i) :
    ∃ u, users[i]? = some u ∧ u.nip = p.nip ∧
      saveUser users p now = users.set i (applyPatch u p) := by
  obtain ⟨u, hu, hpu⟩ := findIdx?_some_spec _ users i h
  exact ⟨u, hu, eq_of_beq hpu, by simp [saveUser, h, hu]⟩

theorem saveUser_map_nip_found (users : List StoredUser) (p : UserPatch)
    (now : String) (i : Nat)
    (h : users.findIdx? (fun u => u.nip == p.nip) = some i) :
    (saveUser users p now).map (·.nip) = users.map (·.nip) := by
  obtain ⟨u, hu, hnip, heq⟩ := saveUser_found users p now i h
  rw [heq]
  exact map_set_eq_of_proj _ users i u _ hu (by simp [applyPatch, hnip])

theorem saveUser_none (users : List StoredUser) (p : UserPatch) (now : String)
    (h : users.findIdx? (fun u => u.nip == p.nip) = none) :
    saveUser users p now = users ++ [newUser p now] := by
  simp [saveUser, h]

theorem saveUser_nodup (users : List StoredUser) (p : UserPatch) (now : String)
    (h : nipsNodup users) : nipsNodup (saveUser users p now) := by
  cases hf : users.findIdx? (fun u => u.nip == p.nip) with
  | some i =>
    unfold nipsNodup
    rw [saveUser_map_nip_found users p now i hf]
    exact h
  | none =>
    unfold nipsNodup at h ⊢
    rw [saveUser_none users p now hf, List.map_append]
    refine List.Nodup.append h (List.nodup_singleton _) ?_
    intro a ha hb
    simp only [newUser, List.map_cons, List.map_nil, List.mem_singleton] at hb
    obtain ⟨u, hu, rfl⟩ := List.mem_map.mp ha
    have := (List.findIdx?_eq_none_iff.mp hf) u hu
    rw [hb] at this
    simp at this

theorem toggleUser_map_nip (users : List StoredUser) (nip : String) :
    (toggleUser users nip).map (·.nip) = users.map (·.nip) := by
  cases hf : users.findIdx? (fun u => u.nip == nip) with
  | none => simp [toggleUser, hf]
  | some i =>
    obtain ⟨u, hu, _⟩ := findIdx?_some_spec _ users i hf
    simp only [toggleUser, hf, hu]
    exact map_set_eq_of_proj _ users i u _ hu rfl

theorem toggleUser_not_found (users : List StoredUser) (nip : String)
    (h : ∀ u ∈ users, u.nip ≠ nip) : toggleUser users nip = users := by
  have hf : users.findIdx? (fun u => u.nip == nip) = none := by
    rw [List.findIdx?_eq_none_iff]
    intro u hu
    simpa using h u hu
  simp [toggleUser, hf]

theorem deleteUser_nodup (users : List StoredUser) (nip : String)
    (h : nipsNodup users) : nipsNodup (deleteUser users nip) :=
  ((List.filter_sublist users).map _).nodup h

/-- C10: for every roster with pairwise-distinct nips, the dashboard
roster operations preserve distinctness: add-or-update with a present nip
merges in place (same length, same nip sequence) and never appends a
duplicate, while a fresh nip appends exactly one record; delete and
toggle never introduce a duplicate; and toggling an absent nip leaves the
roster unchanged while still responding success. -/
theorem roster_ops_nip_distinct (users : List StoredUser) (p : UserPatch)
    (now nip : String) :
    (nipsNodup users → nipsNodup (saveUser users p now)) ∧
    (∀ i, users.findIdx? (fun u => u.nip == p.nip) = some i →
      ∃ u, users[i]? = some u ∧
        saveUser users p now = users.set i (applyPatch u p) ∧
        (saveUser users p now).length = users.length ∧
        (saveUser users p now).map (·.nip) = users.map (·.nip)) ∧
    (users.findIdx? (fun u => u.nip == p.nip) = none →
      saveUser users p now = users ++ [newUser p now] ∧
      (saveUser users p now).length = users.length + 1) ∧
    (nipsNodup users → nipsNodup (deleteUser users nip)) ∧
    ((toggleUser users nip).map (·.nip) = users.map (·.nip)) ∧
    (nipsNodup users → nipsNodup (toggleUser users nip)) ∧
    ((toggleEndpoint users nip).2 = { success := true, message := "User toggled" }) ∧
    ((∀ u ∈ users, u.nip ≠ nip) →
      toggleEndpoint users nip =
        (users, { success := true, message := "User toggled" })) := by
  refine ⟨saveUser_nodup users p now, ?_, ?_, deleteUser_nodup users nip,
    toggleUser_map_nip users nip, ?_, rfl, ?_⟩
  · intro i h
    obtain ⟨u, hu, hnip, heq⟩ := saveUser_found users p now i h
    exact ⟨u, hu, heq, by rw [heq]; simp,
      saveUser_map_nip_found users p now i h⟩
  · intro h
    refine ⟨saveUser_none users p now h, ?_⟩
    rw [saveUser_none users p now h]
    simp
  · intro h
    unfold nipsNodup
    rw [toggleUser_map_nip users nip]
    exact h
  · intro h
    unfold toggleEndpoint
    rw [toggleUser_not_found users nip h]

/-- Concrete instance of `roster_ops_nip_distinct`: updating the name of
an existing nip in a two-user roster keeps the nips distinct. -/
theorem roster_ops_nip_distinct_check :
    nipsNodup (saveUser
      [⟨"111", some "111", some "Budi", none, true, none⟩,
       ⟨"222", some "222", some "Sari", none, true, none⟩]
      ⟨"111", none, some "Andi", none, none⟩ "2026-01-07") :=
  (roster_ops_nip_distinct
      [⟨"111", some "111", some "Budi", none, true, none⟩,
       ⟨"222", some "222", some "Sari", none, true, none⟩]
      ⟨"111", none, some "Andi", none, none⟩ "2026-01-07" "x").1
    (by unfold nipsNodup; decide)
